import Mathlib

/-!
# Verification of the chat / presence / quota core

Shallow embedding of the quota-enforcement, messaging, presence and
read-receipt logic of the dating-platform backend:

* `src/controllers/usage.controller.js` — `getActiveSubscription`,
  `ensureCallQuota`, `stopCallUsage`;
* `src/controllers/chat.controller.js` — `validateBothUsersSubscription`,
  `sendMessage` (the HTTP send path);
* `src/sockets/chat.namespace.js` — the `send_message` socket handler,
  `checkMessageLimit`, `saveMessageToDB`, `markMessagesAsRead`,
  `generateRoomId`, and the disconnect handler;
* `src/sockets/presence.namespace.js` — `PresenceNamespace.handleDisconnection`.

JavaScript numbers are modelled as `Int`; fields that may be `null` or
`undefined` in a Mongo document are modelled as `Option`; the JS
`x ?? 0` / `x || 0` coercions appear as `Option.getD _ 0` exactly where the
source applies them.  Database state is passed explicitly: each handler is a
pure function from the relevant documents to a result plus updated documents,
and socket handlers additionally return the ordered list of emitted events
(`Effect`s).
-/

namespace CrmCore

/-- A subscription document (`src/models/Subscription.js`).
Timestamps are integers (milliseconds); `messagesAllowed` defaults to `null`
in the schema (nullable = unlimited on the HTTP path); the daily fields
`messagesUsedToday` / `lastMessageDate` are not in the schema and exist only
when the daily-reset code has written them, hence `Option`.
`planDailyLimit` stands for `planId.limits.messagesPerDay` of the populated
plan document. -/
structure Subscription where
  endDate : Int
  messagesAllowed : Option Int
  messagesUsedTotal : Option Int
  totalMessagesUsed : Option Int
  messagesUsedToday : Option Int
  lastMessageDate : Option String
  planDailyLimit : Option Int
  audioTimeAllowed : Option Int
  videoTimeAllowed : Option Int
  audioTimeUsedTotal : Option Int
  videoTimeUsedTotal : Option Int
  totalAudioUsed : Option Int
  totalVideoUsed : Option Int
  deriving Repr, DecidableEq

/-- The `type` parameter of the call-usage endpoints (`'audio' | 'video'`). -/
inductive CallType where
  | audio
  | video
  deriving Repr, DecidableEq

/-- One message pushed onto `chat.messages`. -/
structure Message where
  fromId : String
  toId : String
  body : String
  petitionId : String
  createdAt : Int
  status : String
  deriving Repr, DecidableEq

/-- A chat document: the conversation between `fromId` and `toId`. -/
structure ChatDoc where
  fromId : String
  toId : String
  messages : List Message
  deriving Repr, DecidableEq

/-! ## usage.controller.js -/

/-- Embedding of `getActiveSubscription(userId)`:
`Subscription.findOne({ userId, endDate: { $gt: now } })`.
The user's stored subscription document (if any) is passed in explicitly;
the Mongo filter keeps it only when `endDate > now`. -/
def getActiveSubscription (stored : Option Subscription) (now : Int) :
    Option Subscription :=
  match stored with
  | none => none
  | some s => if now < s.endDate then some s else none

/-- Result of `ensureCallQuota`: `{ ok: false, code }` or
`{ ok: true, remaining }`. -/
inductive QuotaCheck where
  | denied (code : String)
  | granted (remaining : Int)
  deriving Repr, DecidableEq

/-- Embedding of `ensureCallQuota(userId, type)` (usage.controller.js, lines 34-63):
`allowed = type === "audio" ? (sub.audioTimeAllowed ?? 0) : (sub.videoTimeAllowed ?? 0)`,
`used` analogously from the `...UsedTotal` fields,
`remaining = Math.max(0, allowed - used)`; denied when no active
subscription or `remaining <= 0`. -/
def ensureCallQuota (stored : Option Subscription) (now : Int) (t : CallType) :
    QuotaCheck :=
  match getActiveSubscription stored now with
  | none => .denied "NO_SUBSCRIPTION"
  | some sub =>
    let allowed : Int :=
      match t with
      | .audio => sub.audioTimeAllowed.getD 0
      | .video => sub.videoTimeAllowed.getD 0
    let used : Int :=
      match t with
      | .audio => sub.audioTimeUsedTotal.getD 0
      | .video => sub.videoTimeUsedTotal.getD 0
    let remaining := max 0 (allowed - used)
    if remaining ≤ 0 then
      .denied (match t with
        | .audio => "AUDIO_LIMIT_REACHED"
        | .video => "VIDEO_LIMIT_REACHED")
    else
      .granted remaining

/-- Embedding of `stopCallUsage` (usage.controller.js, lines 99-160), the state update:
`secs = Math.max(0, Math.floor(Number(elapsedSec || 0)))`; when `secs > 0`,
`Subscription.findOneAndUpdate({ userId }, { $inc: incField })` — note the
filter has **no** `endDate` condition and there is **no** comparison against
the allowance.  Mongo `$inc` on a missing field initialises it to the
increment, hence `getD 0`. -/
def stopCallUsage (stored : Option Subscription) (t : CallType)
    (elapsedSec : Int) : Option Subscription :=
  let secs := max 0 elapsedSec
  if secs > 0 then
    match stored with
    | none => none
    | some sub =>
      match t with
      | .audio => some { sub with
          audioTimeUsedTotal := some (sub.audioTimeUsedTotal.getD 0 + secs),
          totalAudioUsed := some (sub.totalAudioUsed.getD 0 + secs) }
      | .video => some { sub with
          videoTimeUsedTotal := some (sub.videoTimeUsedTotal.getD 0 + secs),
          totalVideoUsed := some (sub.totalVideoUsed.getD 0 + secs) }
  else stored

/-! ## JS string primitives

The source calls `message.trim()` and `Array.prototype.sort()` on strings.
Both are modelled directly from their JavaScript semantics as executable
functions on the character list of the string. -/

/-- JS whitespace for `String.prototype.trim` (the characters that can
occur in the modelled payloads). -/
def jsWhitespace (c : Char) : Bool :=
  c = ' ' ∨ c = '\t' ∨ c = '\n' ∨ c = '\r'

/-- JS `String.prototype.trim`: strip leading and trailing whitespace. -/
def jsTrim (s : String) : String :=
  ⟨((s.data.dropWhile jsWhitespace).reverse.dropWhile jsWhitespace).reverse⟩

/-- The default JS string comparison used by `Array.prototype.sort()`:
lexicographic on the code units. -/
def jsListLe : List Char → List Char → Bool
  | [], _ => true
  | _ :: _, [] => false
  | x :: xs, y :: ys => if x = y then jsListLe xs ys else decide (x < y)

/-- Comparison `a <= b` in the default JS string ordering. -/
def jsStrLe (a b : String) : Bool :=
  jsListLe a.data b.data

/-! ## Shared chat helpers -/

/-- Result of `validateBothUsersSubscription` (chat.controller.js lines 17-46
and chat.namespace.js lines 421-481).  The socket variant also computes a
`remainingMessages` display value from the plan's daily limits; no modelled
path reads it, so it is omitted; `canChat` is returned by the socket variant
and equals `valid` on every branch of the source. -/
structure ValidationResult where
  valid : Bool
  canChat : Bool
  message : String
  deriving Repr, DecidableEq

/-- Embedding of `validateBothUsersSubscription(userId1, userId2)`: bypass flag short
circuit; both users must have a subscription document; then
`now > endDate` of either one means expired. -/
def validateBothUsersSubscription (bypass : Bool)
    (sub1 sub2 : Option Subscription) (now : Int) : ValidationResult :=
  if bypass then
    ⟨true, true, "Bypassed (dev mode)"⟩
  else
    match sub1, sub2 with
    | some s1, some s2 =>
      if now > s1.endDate ∨ now > s2.endDate then
        ⟨false, false, "One or both subscriptions have expired"⟩
      else
        ⟨true, true, "ok"⟩
    | _, _ => ⟨false, false, "Both users must have active subscriptions to chat"⟩

/-- Embedding of `generateRoomId(userId1, userId2)` (chat.namespace.js lines 415-419):
`[userId1, userId2].sort()` on a two-element array orders the pair by the
default string comparison, then joins with the `chat_` prefix and `_`. -/
def generateRoomId (userId1 userId2 : String) : String :=
  let sorted := if jsStrLe userId1 userId2 then (userId1, userId2) else (userId2, userId1)
  "chat_" ++ sorted.1 ++ "_" ++ sorted.2

/-! ## HTTP send path (chat.controller.js `sendMessage`) -/

/-- The HTTP response of `sendMessage`, reduced to the cases the handler can
return.  In `success`, `remainingMessages = none` renders as `"Unlimited"`. -/
inductive SendResult where
  | badRequest (msg : String)
  | forbidden (code : String)
  | success (messagesUsedTotal : Option Int) (remainingMessages : Option Int)
  | serverError
  deriving Repr, DecidableEq

/-- The documents `sendMessage` reads and writes: the sender's and the
recipient's subscription and the conversation document (if one exists). -/
structure HttpSendState where
  senderSub : Option Subscription
  receiverSub : Option Subscription
  chat : Option ChatDoc
  deriving Repr, DecidableEq

/-- Result of the HTTP handler together with the updated database state. -/
structure HttpSendOutcome where
  result : SendResult
  state : HttpSendState
  deriving Repr, DecidableEq

/-- Embedding of `sendMessage` (chat.controller.js lines 49-195).  Steps, in source
order: input validation; `validateBothUsersSubscription`; re-fetch of the
sender's subscription with its own missing/expired checks (skipped under
bypass; a missing subscription under bypass crashes at the
`subscription.messagesAllowed` access and is caught by the outer
`try`/`catch`, i.e. a 500); the total-period limit check
`remaining = messagesAllowed != null ? Math.max(0, messagesAllowed - messagesUsedTotal) : null`;
persistence of the message onto the chat document; then the debit
`messagesUsedTotal += 1` (with `totalMessagesUsed` kept in sync).
`toPresent` models `if (!to)`, `now` the `new Date()` calls. -/
def sendMessage (bypass : Bool) (now : Int) (toPresent : Bool)
    (messageText : String) (fromId toId petitionId : String)
    (st : HttpSendState) : HttpSendOutcome :=
  if ¬ toPresent then
    ⟨.badRequest "Recipient (to) is required", st⟩
  else if jsTrim messageText = "" then
    ⟨.badRequest "Message text is required", st⟩
  else
    let v := validateBothUsersSubscription bypass st.senderSub st.receiverSub now
    if ¬ v.valid then
      ⟨.forbidden "SUBSCRIPTION_REQUIRED", st⟩
    else
      match st.senderSub with
      | none =>
        if ¬ bypass then ⟨.forbidden "NO_ACTIVE_SUBSCRIPTION", st⟩
        else ⟨.serverError, st⟩
      | some sub =>
        if ¬ bypass ∧ now > sub.endDate then
          ⟨.forbidden "SUBSCRIPTION_EXPIRED", st⟩
        else
          let messagesUsed := sub.messagesUsedTotal.getD 0
          let remaining : Option Int :=
            sub.messagesAllowed.map fun a => max 0 (a - messagesUsed)
          let limitHit : Bool :=
            match remaining with
            | some r => decide (r ≤ 0)
            | none => false
          if ¬ bypass ∧ limitHit then
            ⟨.forbidden "MESSAGE_LIMIT_EXCEEDED", st⟩
          else
            let chat0 := st.chat.getD ⟨fromId, toId, []⟩
            let newMsg : Message :=
              ⟨fromId, toId, jsTrim messageText, petitionId, now, "sent"⟩
            let chat1 := { chat0 with messages := chat0.messages ++ [newMsg] }
            let sub1 :=
              if ¬ bypass then
                { sub with
                  messagesUsedTotal := some (sub.messagesUsedTotal.getD 0 + 1),
                  totalMessagesUsed := some (sub.messagesUsedTotal.getD 0 + 1) }
              else sub
            let finalRemaining := remaining.map fun r => max 0 (r - 1)
            ⟨.success sub1.messagesUsedTotal finalRemaining,
              ⟨some sub1, st.receiverSub, some chat1⟩⟩

/-- Returns `true` exactly on the `success` response. -/
def SendResult.isSuccess : SendResult → Bool
  | .success _ _ => true
  | _ => false

/-! ## Socket send path (chat.namespace.js `send_message` handler) -/

/-- Observable effects of the socket handlers, in emission order:
`errorEvt` — `socket.emit('error', { type: kind })`;
`debitUsage` — the `subscription.save()` inside `saveMessageToDB` that
increments the usage counters;
`persistMessage` — the `chat.save()` that appends the message;
`messageSent` — the acknowledgement to the sender;
`newMessageTo` — `nsp.to('user_' + receiverId).emit('new_message', ...)`;
`messageDelivered` — the delayed `message_delivered` to the sender;
`roomEmit` — `socket.to(roomId).emit('new_message', ...)`;
`messagesReadTo` — `nsp.to('user_' + senderId).emit('messages_read', ...)`. -/
inductive Effect where
  | errorEvt (kind : String)
  | debitUsage (userId : String)
  | persistMessage (petitionId : String)
  | messageSent (petitionId : String)
  | newMessageTo (userId : String) (petitionId : String)
  | messageDelivered (petitionId : String)
  | roomEmit (roomId : String) (petitionId : String)
  | messagesReadTo (userId : String) (ids : List String)
  deriving Repr, DecidableEq

/-- Result of `checkMessageLimit(userId)` (chat.namespace.js lines 483-527):
`canSend` plus the subscription document as it stands in the database after
the call (the daily-reset branch saves `messagesUsedToday = 0` and
`lastMessageDate = today` before comparing against
`planId.limits.messagesPerDay`). -/
structure LimitCheck where
  canSend : Bool
  message : String
  subAfter : Option Subscription
  deriving Repr, DecidableEq

/-- Embedding of `checkMessageLimit` — note it reads the **daily** plan limit
`subscription.planId?.limits?.messagesPerDay` against
`subscription.messagesUsedToday`, resetting the daily counter when
`lastMessageDate !== today`; `messagesAllowed` / `messagesUsedTotal` are not
consulted. -/
def checkMessageLimit (bypass : Bool) (stored : Option Subscription)
    (now : Int) (today : String) : LimitCheck :=
  if bypass then
    ⟨true, "Bypassed (dev mode)", stored⟩
  else
    match stored with
    | none => ⟨false, "No active subscription", none⟩
    | some sub =>
      if now > sub.endDate then
        ⟨false, "Subscription expired", some sub⟩
      else
        match sub.planDailyLimit with
        | none => ⟨true, "Unlimited messages", some sub⟩
        | some maxMessages =>
          let sub1 :=
            if sub.lastMessageDate ≠ some today then
              { sub with messagesUsedToday := some 0,
                         lastMessageDate := some today }
            else sub
          let usedToday := sub1.messagesUsedToday.getD 0
          let remaining := max 0 (maxMessages - usedToday)
          if remaining ≤ 0 then
            ⟨false, "Daily message limit reached. Upgrade your plan for more messages.",
              some sub1⟩
          else
            ⟨true, "ok", some sub1⟩

/-- Result of `saveMessageToDB`: success flag, database state afterwards,
and the writes performed (as effects, in order).  `remainingMessages` of the
source is computed from `subscription?.planId?.limits?.messagesPerDay`, but
this `findOne` has no `.populate('planId')`, so the field reads `undefined`
and the value is always `null` → `'Unlimited'` (when not bypassed); it is
not consulted by any modelled property. -/
structure SaveOutcome where
  success : Bool
  senderSub : Option Subscription
  chat : Option ChatDoc
  effects : List Effect
  deriving Repr, DecidableEq

/-- Embedding of `saveMessageToDB(fromId, toId, message, messageId, tempId)`
(chat.namespace.js lines 529-591).  Order inside the `try` block:
1. increment `messagesUsedToday`, `messagesUsedTotal`, `totalMessagesUsed`
   and save the subscription — **unconditionally**, with no check against
   any allowance;
2. find-or-create the chat document and `chat.save()` with the new message.
`chatSaveOk = false` models the chat write throwing: the `catch` returns
`{ success: false }` and performs **no** compensating update of the
subscription. -/
def saveMessageToDB (bypass : Bool) (chatSaveOk : Bool)
    (fromId toId messageText messageId : String) (now : Int)
    (stored : Option Subscription) (chat? : Option ChatDoc) : SaveOutcome :=
  let debited :=
    match stored with
    | some sub =>
      if ¬ bypass then
        (some { sub with
            messagesUsedToday := some (sub.messagesUsedToday.getD 0 + 1),
            messagesUsedTotal := some (sub.messagesUsedTotal.getD 0 + 1),
            totalMessagesUsed := some (sub.messagesUsedTotal.getD 0 + 1) },
          [Effect.debitUsage fromId])
      else (some sub, ([] : List Effect))
    | none => (none, [])
  if ¬ chatSaveOk then
    ⟨false, debited.1, chat?, debited.2⟩
  else
    let chat0 := chat?.getD ⟨fromId, toId, []⟩
    let msg : Message := ⟨fromId, toId, messageText, messageId, now, "sent"⟩
    let chat1 := { chat0 with messages := chat0.messages ++ [msg] }
    ⟨true, debited.1, some chat1, debited.2 ++ [Effect.persistMessage messageId]⟩

/-- The database/connection state the `send_message` socket handler touches. -/
structure SocketState where
  senderSub : Option Subscription
  receiverSub : Option Subscription
  chat : Option ChatDoc
  receiverOnline : Bool
  deriving Repr, DecidableEq

/-- Effects emitted by a socket handler run plus the state afterwards. -/
structure SocketOutcome where
  effects : List Effect
  state : SocketState
  deriving Repr, DecidableEq

/-- The `send_message` handler (chat.namespace.js lines 146-225), in source
order: payload validation; `validateBothUsersSubscription` (rejecting when
`!valid || !canChat`); `checkMessageLimit` on the sender (rejecting with the
`limit_exceeded` error event when `!canSend`); `saveMessageToDB`
(`db_error` event on failure); `message_sent` ack to the sender;
`new_message` (and the delayed `message_delivered`) when the receiver is in
`onlineUsers`; finally `socket.to(roomId).emit('new_message', ...)`. -/
def sendMessageHandler (bypass : Bool) (chatSaveOk : Bool) (now : Int)
    (today : String) (fromId toId messageText messageId : String)
    (receiverPresent : Bool) (st : SocketState) : SocketOutcome :=
  if ¬ receiverPresent ∨ jsTrim messageText = "" then
    ⟨[.errorEvt "validation_error"], st⟩
  else
    let v := validateBothUsersSubscription bypass st.senderSub st.receiverSub now
    if ¬ v.valid ∨ ¬ v.canChat then
      ⟨[.errorEvt "subscription_error"], st⟩
    else
      let cm := checkMessageLimit bypass st.senderSub now today
      let st1 := { st with senderSub := cm.subAfter }
      if ¬ cm.canSend then
        ⟨[.errorEvt "limit_exceeded"], st1⟩
      else
        let so := saveMessageToDB bypass chatSaveOk fromId toId messageText
          messageId now st1.senderSub st1.chat
        let st2 := { st1 with senderSub := so.senderSub, chat := so.chat }
        if ¬ so.success then
          ⟨so.effects ++ [.errorEvt "db_error"], st2⟩
        else
          let base := so.effects ++ [Effect.messageSent messageId]
          let withReceiver :=
            if st.receiverOnline then
              base ++ [Effect.newMessageTo toId messageId,
                       Effect.messageDelivered messageId]
            else base
          ⟨withReceiver ++ [Effect.roomEmit (generateRoomId fromId toId) messageId],
            st2⟩

/-! ## Presence: chat namespace connect/disconnect (chat.namespace.js) -/

/-- One value of the chat namespace's `onlineUsers` map. -/
structure PresenceEntry where
  isOnline : Bool
  lastSeen : Int
  deriving Repr, DecidableEq

/-- JS `Map.prototype.set` on an association list keyed by user id. -/
def mapSet {α : Type} (k : String) (v : α) :
    List (String × α) → List (String × α)
  | [] => [(k, v)]
  | (k', v') :: rest =>
    if k' = k then (k, v) :: rest else (k', v') :: mapSet k v rest

/-- JS `Map.prototype.delete`. -/
def mapDelete {α : Type} (k : String) (l : List (String × α)) :
    List (String × α) :=
  l.filter fun p => p.1 != k

/-- Process-wide state of the chat namespace's presence bookkeeping:
the `onlineUsers` map, the delete timers scheduled by the disconnect
handler (fire time, user), and the broadcasts emitted so far
(time, event name, user). -/
structure ChatPresenceState where
  onlineUsers : List (String × PresenceEntry)
  pendingDeletes : List (Int × String)
  emitted : List (Int × String × String)
  deriving Repr, DecidableEq

/-- Events driving the chat namespace presence state: a connection
(lines 41-85), a transport disconnect (lines 380-404), and the firing of a
delete timer created by `setTimeout(..., 30000)` in the disconnect handler. -/
inductive ChatPresenceEvent where
  | connect (u : String) (t : Int)
  | disconnect (u : String) (t : Int)
  | graceFire (u : String) (t : Int)
  deriving Repr, DecidableEq

/-- One step of the chat namespace presence logic, from the source:
on connect, `onlineUsers.set(userId, {..., isOnline: true})` and a
`user_online` broadcast (nothing cancels a pending delete timer);
on disconnect of a known user, the entry is flagged offline, a
`user_offline` broadcast is emitted **immediately**, and a delete of the
entry is scheduled for 30 s later; a firing timer deletes the entry
unconditionally. -/
def chatPresenceStep (st : ChatPresenceState) :
    ChatPresenceEvent → ChatPresenceState
  | .connect u t =>
    { st with
      onlineUsers := mapSet u ⟨true, t⟩ st.onlineUsers,
      emitted := st.emitted ++ [(t, "user_online", u)] }
  | .disconnect u t =>
    if (st.onlineUsers.lookup u).isSome then
      { onlineUsers := mapSet u ⟨false, t⟩ st.onlineUsers,
        pendingDeletes := st.pendingDeletes ++ [(t + 30000, u)],
        emitted := st.emitted ++ [(t, "user_offline", u)] }
    else st
  | .graceFire u _ =>
    { st with
      onlineUsers := mapDelete u st.onlineUsers,
      pendingDeletes := st.pendingDeletes.filter fun p => p.2 != u }

/-- Run a sequence of presence events from the empty state. -/
def runChatPresence (events : List ChatPresenceEvent) : ChatPresenceState :=
  events.foldl chatPresenceStep ⟨[], [], []⟩

/-! ## Presence namespace (presence.namespace.js) -/

/-- State of `PresenceNamespace`: `userSockets` (user → socket ids),
`onlineUsers` (as the set of keys of the source's map; the cached user data
is irrelevant here) and the broadcasts emitted so far (event, user). -/
structure PresenceNsState where
  userSockets : List (String × List String)
  onlineUsers : List String
  emitted : List (String × String)
  deriving Repr, DecidableEq

/-- Embedding of `PresenceNamespace.handleDisconnection(userId, socketId, user)`
(presence.namespace.js lines 125-159): remove the socket from the user's
socket set; if it was the last one, drop the user from both maps and
broadcast `user_offline` **in the same step** — there is no grace timer in
this namespace at all. -/
def handleDisconnection (u sid : String) (st : PresenceNsState) :
    PresenceNsState :=
  match st.userSockets.lookup u with
  | none => st
  | some socks =>
    let socks' := socks.erase sid
    if socks'.isEmpty then
      if st.onlineUsers.contains u then
        { userSockets := mapDelete u st.userSockets,
          onlineUsers := st.onlineUsers.erase u,
          emitted := st.emitted ++ [("user_offline", u)] }
      else
        { userSockets := mapDelete u st.userSockets,
          onlineUsers := st.onlineUsers,
          emitted := st.emitted }
    else
      { st with userSockets := mapSet u socks' st.userSockets }

/-! ## Read receipts (chat.namespace.js `mark_messages_read`) -/

/-- MongoDB's positional-`$` update as used in `markMessagesAsRead`:
`$set: { 'messages.$.status': 'read' }` writes the **first** array element
matching the query condition `'messages.petitionId': { $in: messageIds }`. -/
def setFirstMatchRead (ids : List String) : List Message → List Message
  | [] => []
  | m :: rest =>
    if ids.contains m.petitionId then
      { m with status := "read" } :: rest
    else
      m :: setFirstMatchRead ids rest

/-- The `updateMany` filter of `markMessagesAsRead`: the chat is between the
two users (either direction) and some message's `petitionId` is in the
requested list. -/
def chatMatchesReadQuery (readerId senderId : String) (ids : List String)
    (c : ChatDoc) : Bool :=
  ((c.fromId == senderId && c.toId == readerId) ||
   (c.fromId == readerId && c.toId == senderId)) &&
  c.messages.any fun m => ids.contains m.petitionId

/-- Effect of `markMessagesAsRead` on a single chat document. -/
def updateChatForRead (readerId senderId : String) (ids : List String)
    (c : ChatDoc) : ChatDoc :=
  if chatMatchesReadQuery readerId senderId ids c then
    { c with messages := setFirstMatchRead ids c.messages }
  else c

/-- Embedding of `markMessagesAsRead(readerId, senderId, messageIds)`
(chat.namespace.js lines 593-610): `Chat.updateMany(filter, positional $set)`
over the whole collection. -/
def markMessagesAsRead (readerId senderId : String) (ids : List String)
    (db : List ChatDoc) : List ChatDoc :=
  db.map (updateChatForRead readerId senderId ids)

/-- The `mark_messages_read` socket handler (chat.namespace.js lines
255-272): run the database update, then — when the original sender is
online — emit `messages_read` carrying the **entire** requested id list. -/
def markMessagesReadHandler (senderOnline : Bool)
    (readerId senderId : String) (ids : List String) (db : List ChatDoc) :
    List ChatDoc × List Effect :=
  (markMessagesAsRead readerId senderId ids db,
   if senderOnline then [Effect.messagesReadTo senderId ids] else [])

/-- Number of positions at which the `status` field differs between two
message lists (compared pointwise). -/
def changedStatusCount : List Message → List Message → Nat
  | a :: as, b :: bs =>
    (if a.status = b.status then 0 else 1) + changedStatusCount as bs
  | _, _ => 0

/-! ## Concrete fixtures -/

/-- A freshly created subscription with the schema defaults of
`src/models/Subscription.js` (`messagesAllowed: null`, counters `0`,
call allowances `0`; the daily fields are absent from the schema).
`endDate` is a placeholder overridden per fixture. -/
def baseSub : Subscription where
  endDate := 0
  messagesAllowed := none
  messagesUsedTotal := some 0
  totalMessagesUsed := some 0
  messagesUsedToday := none
  lastMessageDate := none
  planDailyLimit := none
  audioTimeAllowed := some 0
  videoTimeAllowed := some 0
  audioTimeUsedTotal := some 0
  videoTimeUsedTotal := some 0
  totalAudioUsed := some 0
  totalVideoUsed := some 0

/-- An active (unexpired, at `now = 0`) peer subscription. -/
def activePeerSub : Subscription := { baseSub with endDate := 1000 }

/-! ## Helper lemmas -/

/-- The JS two-element sort order is total. -/
theorem jsListLe_total (a b : List Char) :
    jsListLe a b = true ∨ jsListLe b a = true := by
  induction a generalizing b with
  | nil => left; rfl
  | cons x xs ih =>
    cases b with
    | nil => right; rfl
    | cons y ys =>
      by_cases hxy : x = y
      · subst hxy
        rcases ih ys with h | h
        · left; simpa [jsListLe] using h
        · right; simpa [jsListLe] using h
      · rcases lt_or_gt_of_ne hxy with h | h
        · left; simp [jsListLe, hxy, h]
        · right; simp [jsListLe, Ne.symm hxy, h]

/-- The JS two-element sort order is antisymmetric. -/
theorem jsListLe_antisymm (a b : List Char) (h1 : jsListLe a b = true)
    (h2 : jsListLe b a = true) : a = b := by
  induction a generalizing b with
  | nil =>
    cases b with
    | nil => rfl
    | cons y ys => simp [jsListLe] at h2
  | cons x xs ih =>
    cases b with
    | nil => simp [jsListLe] at h1
    | cons y ys =>
      by_cases hxy : x = y
      · subst hxy
        simp only [jsListLe, if_pos rfl] at h1 h2
        rw [ih ys h1 h2]
      · simp [jsListLe, hxy, Ne.symm hxy] at h1 h2
        exact absurd (lt_trans h1 h2) (lt_irrefl x)

/-- Two strings with the same character data are equal. -/
theorem string_data_eq {a b : String} (h : a.data = b.data) : a = b := by
  cases a; cases b; exact congrArg String.mk h

/-- The count `changedStatusCount` of a list against itself is zero. -/
theorem changedStatusCount_self (l : List Message) :
    changedStatusCount l l = 0 := by
  induction l with
  | nil => rfl
  | cons m rest ih => simp [changedStatusCount, ih]

/-- The positional update changes the `status` of at most one element. -/
theorem changedStatusCount_setFirstMatchRead (ids : List String)
    (msgs : List Message) :
    changedStatusCount msgs (setFirstMatchRead ids msgs) ≤ 1 := by
  induction msgs with
  | nil => simp [setFirstMatchRead, changedStatusCount]
  | cons m rest ih =>
    rw [setFirstMatchRead]
    by_cases h : ids.contains m.petitionId
    · rw [if_pos h, changedStatusCount, changedStatusCount_self]
      split <;> omega
    · rw [if_neg h, changedStatusCount, if_pos rfl]
      omega

/-! ## Claims -/

/-- C9: for all user ids `a` and `b`, the room id computed for the pair is
order independent: `generateRoomId a b = generateRoomId b a`, so both
participants compute the same conversation room id independently. -/
theorem generateRoomId_symmetric (a b : String) :
    generateRoomId a b = generateRoomId b a := by
  unfold generateRoomId
  by_cases h1 : jsStrLe a b
  · by_cases h2 : jsStrLe b a
    · have hab : a = b :=
        string_data_eq (jsListLe_antisymm a.data b.data h1 h2)
      subst hab; rfl
    · simp [h1, h2]
  · by_cases h2 : jsStrLe b a
    · simp [h1, h2]
    · rcases jsListLe_total a.data b.data with h | h
      · exact absurd h h1
      · exact absurd h h2

/-- C10: for every `mark_messages_read` request carrying more than one
`messageId`, the positional `updateMany` of `markMessagesAsRead` sets
`status = 'read'` on at most one message per matching conversation document,
while the `messages_read` notification to the online sender carries the
entire requested id list. -/
theorem mark_read_updates_at_most_one_per_doc
    (readerId senderId : String) (ids : List String) (db : List ChatDoc)
    (_hids : 1 < ids.length) :
    markMessagesAsRead readerId senderId ids db
      = db.map (updateChatForRead readerId senderId ids) ∧
    (∀ c : ChatDoc,
      changedStatusCount c.messages
        (updateChatForRead readerId senderId ids c).messages ≤ 1) ∧
    (markMessagesReadHandler true readerId senderId ids db).2
      = [Effect.messagesReadTo senderId ids] := by
  refine ⟨rfl, ?_, rfl⟩
  intro c
  unfold updateChatForRead
  by_cases h : chatMatchesReadQuery readerId senderId ids c
  · simpa [h] using changedStatusCount_setFirstMatchRead ids c.messages
  · simp [h, changedStatusCount_self]

/-- A conversation document in which two messages match the requested ids. -/
def demoReadChat : ChatDoc :=
  ⟨"userS", "userR",
    [⟨"userS", "userR", "hi", "MSGa", 0, "sent"⟩,
     ⟨"userS", "userR", "again", "MSGb", 1, "sent"⟩]⟩

/-- Witness for C10 at a concrete two-id request. -/
theorem mark_read_updates_at_most_one_per_doc_witness :
    1 < (["MSGa", "MSGb"] : List String).length ∧
    (markMessagesReadHandler true "userR" "userS" ["MSGa", "MSGb"]
        [demoReadChat]).2
      = [Effect.messagesReadTo "userS" ["MSGa", "MSGb"]] ∧
    changedStatusCount demoReadChat.messages
      (updateChatForRead "userR" "userS" ["MSGa", "MSGb"]
        demoReadChat).messages ≤ 1 :=
  ⟨by decide,
   (mark_read_updates_at_most_one_per_doc "userR" "userS" ["MSGa", "MSGb"]
      [demoReadChat] (by decide)).2.2,
   (mark_read_updates_at_most_one_per_doc "userR" "userS" ["MSGa", "MSGb"]
      [demoReadChat] (by decide)).2.1 demoReadChat⟩

/-- An expired subscription fixture (`endDate` in the past at `now = 0`)
with plenty of unused allowance. -/
def expiredSub : Subscription :=
  { baseSub with
    endDate := -5, messagesAllowed := some 100,
    audioTimeAllowed := some 600, videoTimeAllowed := some 600 }

/-- C5: a subscription whose `endDate` is strictly in the past is denied by
every resource check — the call-start gate (both call types), the HTTP
send-message path, the socket `send_message` handler, and the socket
message-limit check — regardless of the remaining numeric allowance. -/
theorem expired_subscription_denies_all_checks
    (s : Subscription) (now : Int) (hexp : s.endDate < now) :
    (∀ t : CallType,
      ensureCallQuota (some s) now t = .denied "NO_SUBSCRIPTION") ∧
    (∀ (recv : Option Subscription) (chat : Option ChatDoc)
        (msg fromId toId pid : String), jsTrim msg ≠ "" →
      sendMessage false now true msg fromId toId pid ⟨some s, recv, chat⟩
        = ⟨.forbidden "SUBSCRIPTION_REQUIRED", ⟨some s, recv, chat⟩⟩) ∧
    (∀ (recv : Option Subscription) (chat : Option ChatDoc)
        (saveOk recvOnline : Bool) (today msg fromId toId mid : String),
        jsTrim msg ≠ "" →
      sendMessageHandler false saveOk now today fromId toId msg mid true
          ⟨some s, recv, chat, recvOnline⟩
        = ⟨[.errorEvt "subscription_error"], ⟨some s, recv, chat, recvOnline⟩⟩) ∧
    (∀ today : String,
      (checkMessageLimit false (some s) now today).canSend = false) := by
  have hga : getActiveSubscription (some s) now = none := by
    simp only [getActiveSubscription]
    rw [if_neg (by omega)]
  refine ⟨?_, ?_, ?_, ?_⟩
  · intro t
    unfold ensureCallQuota
    rw [hga]
  · intro recv chat msg fromId toId pid hmsg
    cases recv with
    | none => simp [sendMessage, validateBothUsersSubscription, hmsg]
    | some s2 => simp [sendMessage, validateBothUsersSubscription, hmsg, hexp]
  · intro recv chat saveOk recvOnline today msg fromId toId mid hmsg
    cases recv with
    | none => simp [sendMessageHandler, validateBothUsersSubscription, hmsg]
    | some s2 =>
      simp [sendMessageHandler, validateBothUsersSubscription, hmsg, hexp]
  · intro today
    simp [checkMessageLimit, hexp]

/-- Witness for C5 at a concrete expired subscription. -/
theorem expired_subscription_denies_all_checks_witness :
    expiredSub.endDate < 0 ∧
    ensureCallQuota (some expiredSub) 0 .audio = .denied "NO_SUBSCRIPTION" ∧
    sendMessage false 0 true "hello" "userA" "userB" "MSG1"
        ⟨some expiredSub, some activePeerSub, none⟩
      = ⟨.forbidden "SUBSCRIPTION_REQUIRED",
          ⟨some expiredSub, some activePeerSub, none⟩⟩ ∧
    sendMessageHandler false true 0 "2026-10-11" "userA" "userB" "hello"
        "MSG1" true ⟨some expiredSub, some activePeerSub, none, false⟩
      = ⟨[.errorEvt "subscription_error"],
          ⟨some expiredSub, some activePeerSub, none, false⟩⟩ ∧
    (checkMessageLimit false (some expiredSub) 0 "2026-10-11").canSend
      = false := by
  have h := expired_subscription_denies_all_checks expiredSub 0 (by decide)
  exact ⟨by decide, h.1 .audio,
    h.2.1 (some activePeerSub) none "hello" "userA" "userB" "MSG1"
      (by decide),
    h.2.2.1 (some activePeerSub) none true false "2026-10-11" "hello"
      "userA" "userB" "MSG1" (by decide),
    h.2.2.2 "2026-10-11"⟩

/-- Projection `subAfter` of either branch of the final limit comparison. -/
theorem limitCheck_branch_subAfter (c : Prop) [Decidable c] (m1 m2 : String)
    (x : Option Subscription) :
    (if c then (⟨false, m1, x⟩ : LimitCheck) else ⟨true, m2, x⟩).subAfter
      = x := by
  by_cases h : c <;> simp [h]

/-- On an active subscription, `checkMessageLimit` leaves the stored
document unchanged except possibly for the daily-reset fields
(`messagesUsedToday`, `lastMessageDate`). -/
theorem checkMessageLimit_subAfter (s : Subscription) (now : Int)
    (today : String) (hact : ¬ now > s.endDate) :
    ∃ s', (checkMessageLimit false (some s) now today).subAfter = some s' ∧
      s'.messagesUsedTotal = s.messagesUsedTotal ∧
      s'.totalMessagesUsed = s.totalMessagesUsed ∧
      s'.endDate = s.endDate ∧
      s'.messagesAllowed = s.messagesAllowed := by
  unfold checkMessageLimit
  simp only [Bool.false_eq_true, if_false, hact, reduceIte]
  rcases hpl : s.planDailyLimit with _ | m
  · exact ⟨s, rfl, rfl, rfl, rfl, rfl⟩
  · by_cases hd : s.lastMessageDate ≠ some today
    · simp only [limitCheck_branch_subAfter]
      rw [if_pos hd]
      exact ⟨_, rfl, rfl, rfl, rfl, rfl⟩
    · simp only [limitCheck_branch_subAfter]
      rw [if_neg hd]
      exact ⟨s, rfl, rfl, rfl, rfl, rfl⟩

/-- Evaluation of `saveMessageToDB` on a present subscription without bypass, successful
chat write: debit first, then persistence. -/
theorem saveMessageToDB_ok (f t m mid : String) (now : Int)
    (s : Subscription) (chat : Option ChatDoc) :
    saveMessageToDB false true f t m mid now (some s) chat
      = ⟨true,
          some { s with
            messagesUsedToday := some (s.messagesUsedToday.getD 0 + 1),
            messagesUsedTotal := some (s.messagesUsedTotal.getD 0 + 1),
            totalMessagesUsed := some (s.messagesUsedTotal.getD 0 + 1) },
          some { chat.getD ⟨f, t, []⟩ with
            messages := (chat.getD ⟨f, t, []⟩).messages
              ++ [⟨f, t, m, mid, now, "sent"⟩] },
          [Effect.debitUsage f, Effect.persistMessage mid]⟩ := rfl

/-- Evaluation of `saveMessageToDB` when the chat write fails: the debit has already been
applied and saved, and nothing compensates it. -/
theorem saveMessageToDB_fail (f t m mid : String) (now : Int)
    (s : Subscription) (chat : Option ChatDoc) :
    saveMessageToDB false false f t m mid now (some s) chat
      = ⟨false,
          some { s with
            messagesUsedToday := some (s.messagesUsedToday.getD 0 + 1),
            messagesUsedTotal := some (s.messagesUsedTotal.getD 0 + 1),
            totalMessagesUsed := some (s.messagesUsedTotal.getD 0 + 1) },
          chat,
          [Effect.debitUsage f]⟩ := rfl

/-- C4: the socket `send_message` event is processed in order —
(1) subscription validation, (2) the sender quota check, (3) debit and
message persistence, (4) `message_sent` acknowledgement to the sender,
(5) `new_message` delivery to the recipient's live connection when online —
and whenever the quota check of step 2 fails the handler stops with a
single `error` event to the sender, the chat store is unchanged (no message
persisted) and the sender's total usage counter is not debited. -/
theorem socket_send_order_and_quota_gate
    (saveOk : Bool) (now : Int) (today fromId toId msg mid : String)
    (s1 s2 : Subscription) (chat : Option ChatDoc) (recvOnline : Bool)
    (hmsg : jsTrim msg ≠ "")
    (h1 : ¬ now > s1.endDate) (h2 : ¬ now > s2.endDate) :
    ((checkMessageLimit false (some s1) now today).canSend = false →
      sendMessageHandler false saveOk now today fromId toId msg mid true
          ⟨some s1, some s2, chat, recvOnline⟩
        = ⟨[.errorEvt "limit_exceeded"],
            ⟨(checkMessageLimit false (some s1) now today).subAfter,
              some s2, chat, recvOnline⟩⟩ ∧
      ∃ s', (checkMessageLimit false (some s1) now today).subAfter = some s' ∧
        s'.messagesUsedTotal = s1.messagesUsedTotal) ∧
    ((checkMessageLimit false (some s1) now today).canSend = true →
      ∃ s', (checkMessageLimit false (some s1) now today).subAfter = some s' ∧
        sendMessageHandler false true now today fromId toId msg mid true
            ⟨some s1, some s2, chat, recvOnline⟩
          = ⟨[Effect.debitUsage fromId, Effect.persistMessage mid,
               Effect.messageSent mid]
              ++ (if recvOnline then
                    [Effect.newMessageTo toId mid,
                     Effect.messageDelivered mid]
                  else [])
              ++ [Effect.roomEmit (generateRoomId fromId toId) mid],
              ⟨some { s' with
                  messagesUsedToday := some (s'.messagesUsedToday.getD 0 + 1),
                  messagesUsedTotal := some (s'.messagesUsedTotal.getD 0 + 1),
                  totalMessagesUsed := some (s'.messagesUsedTotal.getD 0 + 1) },
                some s2,
                some { chat.getD ⟨fromId, toId, []⟩ with
                  messages := (chat.getD ⟨fromId, toId, []⟩).messages
                    ++ [⟨fromId, toId, msg, mid, now, "sent"⟩] },
                recvOnline⟩⟩) := by
  have hv : validateBothUsersSubscription false (some s1) (some s2) now
      = ⟨true, true, "ok"⟩ := by
    simp [validateBothUsersSubscription, h1, h2]
  constructor
  · intro hfail
    obtain ⟨s', hs', htot, _, _, _⟩ := checkMessageLimit_subAfter s1 now today h1
    refine ⟨?_, s', hs', htot⟩
    unfold sendMessageHandler
    simp only [hv]
    simp [hmsg, hfail]
  · intro hsucc
    obtain ⟨s', hs', _, _, _, _⟩ := checkMessageLimit_subAfter s1 now today h1
    refine ⟨s', hs', ?_⟩
    unfold sendMessageHandler
    simp only [hv]
    cases recvOnline <;> simp [hmsg, hsucc, hs', saveMessageToDB_ok]

/-- An active subscription whose plan has a zero daily message limit, with
the stored day equal to today (no reset applies). -/
def dailyZeroSub : Subscription :=
  { baseSub with
    endDate := 1000, planDailyLimit := some 0,
    lastMessageDate := some "2026-10-11" }

/-- Witness for C4: a concrete quota-failing send (error event, no
persistence) and a concrete successful send (full ordered effect list). -/
theorem socket_send_order_and_quota_gate_witness :
    ((checkMessageLimit false (some dailyZeroSub) 0 "2026-10-11").canSend
        = false ∧
      sendMessageHandler false true 0 "2026-10-11" "userA" "userB" "hello"
          "MSG1" true ⟨some dailyZeroSub, some activePeerSub, none, false⟩
        = ⟨[.errorEvt "limit_exceeded"],
            ⟨(checkMessageLimit false (some dailyZeroSub) 0
                "2026-10-11").subAfter,
              some activePeerSub, none, false⟩⟩) ∧
    sendMessageHandler false true 0 "2026-10-11" "userA" "userB" "hello"
        "MSG1" true ⟨some activePeerSub, some activePeerSub, none, true⟩
      = ⟨[Effect.debitUsage "userA", Effect.persistMessage "MSG1",
          Effect.messageSent "MSG1", Effect.newMessageTo "userB" "MSG1",
          Effect.messageDelivered "MSG1",
          Effect.roomEmit (generateRoomId "userA" "userB") "MSG1"],
          ⟨some { activePeerSub with
              messagesUsedToday := some 1, messagesUsedTotal := some 1,
              totalMessagesUsed := some 1 },
            some activePeerSub,
            some ⟨"userA", "userB",
              [⟨"userA", "userB", "hello", "MSG1", 0, "sent"⟩]⟩,
            true⟩⟩ := by
  have hfailpart := socket_send_order_and_quota_gate true 0 "2026-10-11"
    "userA" "userB" "hello" "MSG1" dailyZeroSub activePeerSub none false
    (by decide) (by decide) (by decide)
  have hsuccpart := socket_send_order_and_quota_gate true 0 "2026-10-11"
    "userA" "userB" "hello" "MSG1" activePeerSub activePeerSub none true
    (by decide) (by decide) (by decide)
  refine ⟨⟨by decide, (hfailpart.1 (by decide)).1⟩, ?_⟩
  obtain ⟨s', hs', heq⟩ := hsuccpart.2 (by decide)
  have hsa : (checkMessageLimit false (some activePeerSub) 0
      "2026-10-11").subAfter = some activePeerSub := by decide
  rw [hs'] at hsa
  obtain rfl : s' = activePeerSub := Option.some.inj hsa
  rw [heq]
  decide

/-- Inversion for the HTTP send path: a `success` response means the sender
had a subscription that passed every gate, the counter was debited by one,
and — when the allowance is a number — the debited counter stays within it. -/
theorem sendMessage_success_bound (now : Int) (toPresent : Bool)
    (msg f t pid : String) (st : HttpSendState) (s : Subscription) (n : Int)
    (hs : st.senderSub = some s) (hn : s.messagesAllowed = some n)
    (hsucc : (sendMessage false now toPresent msg f t pid st).result.isSuccess
      = true) :
    ∃ s', (sendMessage false now toPresent msg f t pid st).state.senderSub
        = some s' ∧
      s'.messagesUsedTotal = some (s.messagesUsedTotal.getD 0 + 1) ∧
      s.messagesUsedTotal.getD 0 + 1 ≤ n := by
  generalize hEq : sendMessage false now toPresent msg f t pid st = o at hsucc ⊢
  unfold sendMessage at hEq
  rw [hs] at hEq
  simp only [hn, Option.map_some'] at hEq
  split at hEq
  next => subst hEq; simp [SendResult.isSuccess] at hsucc
  next =>
    split at hEq
    next => subst hEq; simp [SendResult.isSuccess] at hsucc
    next =>
      split at hEq
      next => subst hEq; simp [SendResult.isSuccess] at hsucc
      next =>
        split at hEq
        next => subst hEq; simp [SendResult.isSuccess] at hsucc
        next =>
          split at hEq
          next => subst hEq; simp [SendResult.isSuccess] at hsucc
          next hlim =>
            subst hEq
            refine ⟨_, rfl, rfl, ?_⟩
            have : ¬ (decide (max 0 (n - s.messagesUsedTotal.getD 0) ≤ 0)
                = true) := by
              intro hd
              exact hlim ⟨by simp, hd⟩
            rw [decide_eq_true_iff] at this
            omega

/-- The HTTP send path either leaves the database state untouched or
returns `success`. -/
theorem sendMessage_state_or_success (now : Int) (toPresent : Bool)
    (msg f t pid : String) (st : HttpSendState) :
    (sendMessage false now toPresent msg f t pid st).state = st ∨
    (sendMessage false now toPresent msg f t pid st).result.isSuccess
      = true := by
  unfold sendMessage
  dsimp only
  repeat' split
  all_goals first | (left; rfl) | (right; rfl)

/-- Inversion for the HTTP send path: any non-`success` response leaves the
database state untouched. -/
theorem sendMessage_nonsuccess_state (now : Int) (toPresent : Bool)
    (msg f t pid : String) (st : HttpSendState)
    (hfail : (sendMessage false now toPresent msg f t pid st).result.isSuccess
      = false) :
    (sendMessage false now toPresent msg f t pid st).state = st := by
  rcases sendMessage_state_or_success now toPresent msg f t pid st with h | h
  · exact h
  · rw [h] at hfail
    exact absurd hfail (by simp)

/-- An active subscription with exactly one unit of message quota left
(`messagesAllowed = 1`, `messagesUsedTotal = 0`). -/
def lastUnitSub : Subscription :=
  { baseSub with endDate := 1000, messagesAllowed := some 1 }

/-- A subscription with 60 s of audio allowance, 50 s already used. -/
def overdrawSub : Subscription :=
  { baseSub with
    endDate := 1000, audioTimeAllowed := some 60,
    audioTimeUsedTotal := some 50 }

/-- C1 counterexample: on the call-stop path, a debit that would exceed the
numeric allowance is applied in full instead of being rejected — reporting
20 elapsed seconds against a subscription with `audioTimeAllowed = 60` and
`audioTimeUsedTotal = 50` leaves the counter at 70 > 60. -/
theorem stopCallUsage_overdraws_allowance :
    overdrawSub.audioTimeAllowed = some 60 ∧
    stopCallUsage (some overdrawSub) .audio 20
      = some { overdrawSub with
          audioTimeUsedTotal := some 70, totalAudioUsed := some 20 } ∧
    ¬ (70 : Int) ≤ 60 := by decide

/-- C1 (amended): on the HTTP send path the invariant holds — a granted
send debits the total counter by one and the result never exceeds a numeric
allowance, and a rejected send changes nothing — while the call-stop path
and the socket-path debit increment their counters unconditionally, with no
comparison against the corresponding allowance. -/
theorem debit_paths_allowance_behavior :
    (∀ (now : Int) (toPresent : Bool) (msg f t pid : String)
        (st : HttpSendState) (s : Subscription) (n : Int),
      st.senderSub = some s → s.messagesAllowed = some n →
      (sendMessage false now toPresent msg f t pid st).result.isSuccess
        = true →
      ∃ s', (sendMessage false now toPresent msg f t pid st).state.senderSub
          = some s' ∧
        s'.messagesUsedTotal = some (s.messagesUsedTotal.getD 0 + 1) ∧
        s.messagesUsedTotal.getD 0 + 1 ≤ n) ∧
    (∀ (now : Int) (toPresent : Bool) (msg f t pid : String)
        (st : HttpSendState),
      (sendMessage false now toPresent msg f t pid st).result.isSuccess
        = false →
      (sendMessage false now toPresent msg f t pid st).state = st) ∧
    (∀ (s : Subscription) (secs : Int), 0 < secs →
      stopCallUsage (some s) .audio secs
        = some { s with
            audioTimeUsedTotal := some (s.audioTimeUsedTotal.getD 0 + secs),
            totalAudioUsed := some (s.totalAudioUsed.getD 0 + secs) } ∧
      stopCallUsage (some s) .video secs
        = some { s with
            videoTimeUsedTotal := some (s.videoTimeUsedTotal.getD 0 + secs),
            totalVideoUsed := some (s.totalVideoUsed.getD 0 + secs) }) ∧
    (∀ (ok : Bool) (f t m mid : String) (now : Int) (s : Subscription)
        (chat : Option ChatDoc),
      ((saveMessageToDB false ok f t m mid now (some s) chat).senderSub).map
          (fun x => x.messagesUsedTotal)
        = some (some (s.messagesUsedTotal.getD 0 + 1))) := by
  refine ⟨?_, ?_, ?_, ?_⟩
  · intro now toPresent msg f t pid st s n hs hn hsucc
    exact sendMessage_success_bound now toPresent msg f t pid st s n hs hn
      hsucc
  · intro now toPresent msg f t pid st hfail
    exact sendMessage_nonsuccess_state now toPresent msg f t pid st hfail
  · intro s secs hpos
    constructor
    · unfold stopCallUsage
      rw [max_eq_right hpos.le]
      rw [if_pos hpos]
    · unfold stopCallUsage
      rw [max_eq_right hpos.le]
      rw [if_pos hpos]
  · intro ok f t m mid now s chat
    cases ok
    · rw [saveMessageToDB_fail]; rfl
    · rw [saveMessageToDB_ok]; rfl

/-- Witness for C1 (amended) at concrete inputs: a granted HTTP send that
stays within the allowance, a rejected one that changes nothing, and the
unconditional call-stop/socket increments. -/
theorem debit_paths_allowance_behavior_witness :
    (∃ s', (sendMessage false 0 true "hello" "userA" "userB" "MSG1"
          ⟨some lastUnitSub, some activePeerSub, none⟩).state.senderSub
        = some s' ∧
      s'.messagesUsedTotal = some 1 ∧ (1 : Int) ≤ 1) ∧
    (sendMessage false 0 true "hello" "userA" "userB" "MSG1"
        ⟨some expiredSub, some activePeerSub, none⟩).state
      = ⟨some expiredSub, some activePeerSub, none⟩ ∧
    stopCallUsage (some overdrawSub) .audio 20
      = some { overdrawSub with
          audioTimeUsedTotal := some 70, totalAudioUsed := some 20 } ∧
    ((saveMessageToDB false false "userA" "userB" "hello" "MSG1" 0
        (some overdrawSub) none).senderSub).map
        (fun x => x.messagesUsedTotal) = some (some 1) := by
  have h := debit_paths_allowance_behavior
  refine ⟨?_, ?_, ?_, ?_⟩
  · have hsB : (sendMessage false 0 true "hello" "userA" "userB" "MSG1"
        ⟨some lastUnitSub, some activePeerSub, none⟩).result.isSuccess
        = true := by decide
    have hnB : lastUnitSub.messagesAllowed = some 1 := by decide
    obtain ⟨s', hs', htot, hle⟩ := h.1 0 true "hello" "userA" "userB" "MSG1"
      ⟨some lastUnitSub, some activePeerSub, none⟩ lastUnitSub 1 rfl hnB hsB
    exact ⟨s', hs', htot.trans (by decide), by decide⟩
  · exact h.2.1 0 true "hello" "userA" "userB" "MSG1"
      ⟨some expiredSub, some activePeerSub, none⟩ (by decide)
  · have := (h.2.2.1 overdrawSub 20 (by decide)).1
    simpa using this
  · have := h.2.2.2 false "userA" "userB" "hello" "MSG1" 0 overdrawSub none
    simpa using this

/-- The interleaving the non-atomic HTTP send path permits: both requests
perform their `Subscription.findOne` before either `subscription.save()`
runs (the handler awaits `Chat.findOne` / `chat.save` in between, so this
interleaving is reachable on the event loop); each request therefore
computes from the same snapshot of the sender's subscription. -/
def raceSend1 : HttpSendOutcome :=
  sendMessage false 0 true "hello" "userA" "userB" "MSG1"
    ⟨some lastUnitSub, some activePeerSub, none⟩

/-- The second concurrent request, same sender snapshot, other recipient. -/
def raceSend2 : HttpSendOutcome :=
  sendMessage false 0 true "hello" "userA" "userC" "MSG2"
    ⟨some lastUnitSub, some activePeerSub, none⟩

/-- C2: with one unit of quota left (`messagesAllowed = 1`,
`messagesUsedTotal = 0`), two concurrent sends that both read the sender's
subscription before either write commits are **both** granted — the
read-check-write of the send path is not atomic, so the number of granted
sends exceeds the allowance N = 1, and each blind write stores the same
counter value 1. -/
theorem concurrent_sends_both_granted_on_last_unit :
    lastUnitSub.messagesAllowed = some 1 ∧
    lastUnitSub.messagesUsedTotal = some 0 ∧
    raceSend1.result.isSuccess = true ∧
    raceSend2.result.isSuccess = true ∧
    (raceSend1.state.senderSub.map fun s => s.messagesUsedTotal)
      = some (some 1) ∧
    (raceSend2.state.senderSub.map fun s => s.messagesUsedTotal)
      = some (some 1) := by decide

/-- An active subscription whose total-period message allowance is
exhausted (`messagesAllowed = 5 = messagesUsedTotal`), with no plan daily
limit. -/
def totalExhaustedSub : Subscription :=
  { baseSub with
    endDate := 1000, messagesAllowed := some 5, messagesUsedTotal := some 5 }

/-- An active subscription whose plan daily limit is used up for a previous
day, so the socket check resets the daily counter. -/
def dailyResetSub : Subscription :=
  { baseSub with
    endDate := 1000, planDailyLimit := some 3, messagesUsedToday := some 3,
    lastMessageDate := some "2026-10-10" }

/-- C6 counterexample: the socket-path quota check does not compare
`messagesUsedTotal` against `messagesAllowed` — with the total allowance
exhausted it still grants (and the handler then debits the total counter to
6 > 5), while the HTTP path denies the same subscription; and the socket
check applies a daily reset keyed on `lastMessageDate`. -/
theorem socket_check_ignores_total_allowance_cex :
    totalExhaustedSub.messagesAllowed = some 5 ∧
    totalExhaustedSub.messagesUsedTotal = some 5 ∧
    (checkMessageLimit false (some totalExhaustedSub) 0 "2026-10-11").canSend
      = true ∧
    (sendMessage false 0 true "hello" "userA" "userB" "MSG1"
        ⟨some totalExhaustedSub, some activePeerSub, none⟩).result
      = .forbidden "MESSAGE_LIMIT_EXCEEDED" ∧
    ((sendMessageHandler false true 0 "2026-10-11" "userA" "userB" "hello"
        "MSG2" true
        ⟨some totalExhaustedSub, some activePeerSub, none,
          false⟩).state.senderSub.map fun s => s.messagesUsedTotal)
      = some (some 6) ∧
    (checkMessageLimit false (some dailyResetSub) 0 "2026-10-11").canSend
      = true := by decide

/-- C6 (amended): the HTTP path checks the total-period allowance — it
rejects with `MESSAGE_LIMIT_EXCEEDED` exactly when `messagesAllowed` is a
number not exceeding `messagesUsedTotal` — while the socket path checks the
plan's `messagesPerDay` against `messagesUsedToday` with a daily reset
keyed on `lastMessageDate`, ignoring the total-period fields. -/
theorem message_check_models_per_path
    (now : Int) (today msg f t pid : String)
    (s s2 : Subscription) (chat : Option ChatDoc)
    (hmsg : jsTrim msg ≠ "")
    (h1 : ¬ now > s.endDate) (h2 : ¬ now > s2.endDate) :
    ((sendMessage false now true msg f t pid ⟨some s, some s2, chat⟩).result
        = .forbidden "MESSAGE_LIMIT_EXCEEDED"
      ↔ ∃ a, s.messagesAllowed = some a ∧ a ≤ s.messagesUsedTotal.getD 0) ∧
    ((checkMessageLimit false (some s) now today).canSend = true
      ↔ (s.planDailyLimit = none ∨
          ∃ m, s.planDailyLimit = some m ∧
            (if s.lastMessageDate = some today then
              s.messagesUsedToday.getD 0
             else 0) < m)) := by
  have hv : validateBothUsersSubscription false (some s) (some s2) now
      = ⟨true, true, "ok"⟩ := by
    simp [validateBothUsersSubscription, h1, h2]
  constructor
  · unfold sendMessage
    simp only [hv]
    simp only [hmsg]
    rcases hA : s.messagesAllowed with _ | a
    · simp [h1, hA]
    · simp only [h1, hA]
      by_cases hle : a ≤ s.messagesUsedTotal.getD 0
      · simp [hle]
      · simp [hle]
  · unfold checkMessageLimit
    simp only [Bool.false_eq_true, if_false, h1, reduceIte]
    rcases hpl : s.planDailyLimit with _ | m
    · simp [hpl]
    · simp only [hpl]
      by_cases hd : s.lastMessageDate = some today
      · simp [hd]
        by_cases hle : s.messagesUsedToday.getD 0 < m
        · rw [if_neg (by omega)]
          simp
          try omega
        · rw [if_pos (by omega)]
          simp
          try omega
      · simp [hd]
        by_cases hle : (0 : Int) < m
        · rw [if_neg (by omega)]
          simp
          try omega
        · rw [if_pos (by omega)]
          simp
          try omega

/-- An active subscription with three messages already debited. -/
def preSub3 : Subscription :=
  { baseSub with endDate := 1000, messagesUsedTotal := some 3 }

/-- C3 counterexample: when the quota reservation (the subscription debit
inside `saveMessageToDB`) has succeeded and the subsequent chat write
fails, the handler returns the `db_error` event with **no refund** — the
counter stays at 4 instead of returning to its pre-reservation value 3. -/
theorem no_refund_after_persist_failure_cex :
    preSub3.messagesUsedTotal = some 3 ∧
    (sendMessageHandler false false 0 "2026-10-11" "userA" "userB" "hello"
        "MSG1" true ⟨some preSub3, some activePeerSub, none, false⟩).effects
      = [Effect.debitUsage "userA", Effect.errorEvt "db_error"] ∧
    ((sendMessageHandler false false 0 "2026-10-11" "userA" "userB" "hello"
        "MSG1" true
        ⟨some preSub3, some activePeerSub, none, false⟩).state.senderSub.map
        fun s => s.messagesUsedTotal) = some (some 4) := by decide

/-- C3 (amended): when message persistence fails after the socket-path
reservation succeeded, no refund is issued — the handler emits the
`db_error` event and the sender's total usage counter remains at its
incremented value (one above its pre-reservation value); the chat store is
unchanged. -/
theorem persist_failure_leaves_debit_applied
    (now : Int) (today fromId toId msg mid : String)
    (s1 s2 : Subscription) (chat : Option ChatDoc) (recvOnline : Bool)
    (hmsg : jsTrim msg ≠ "")
    (h1 : ¬ now > s1.endDate) (h2 : ¬ now > s2.endDate)
    (hcm : (checkMessageLimit false (some s1) now today).canSend = true) :
    ∃ s', (checkMessageLimit false (some s1) now today).subAfter = some s' ∧
      s'.messagesUsedTotal = s1.messagesUsedTotal ∧
      sendMessageHandler false false now today fromId toId msg mid true
          ⟨some s1, some s2, chat, recvOnline⟩
        = ⟨[Effect.debitUsage fromId, Effect.errorEvt "db_error"],
            ⟨some { s' with
                messagesUsedToday := some (s'.messagesUsedToday.getD 0 + 1),
                messagesUsedTotal := some (s'.messagesUsedTotal.getD 0 + 1),
                totalMessagesUsed := some (s'.messagesUsedTotal.getD 0 + 1) },
              some s2, chat, recvOnline⟩⟩ := by
  have hv : validateBothUsersSubscription false (some s1) (some s2) now
      = ⟨true, true, "ok"⟩ := by
    simp [validateBothUsersSubscription, h1, h2]
  obtain ⟨s', hs', htot, _, _, _⟩ := checkMessageLimit_subAfter s1 now today h1
  refine ⟨s', hs', htot, ?_⟩
  unfold sendMessageHandler
  simp only [hv]
  simp [hmsg, hcm, hs', saveMessageToDB_fail]

/-- Witness for C3 (amended) at a concrete failing persistence. -/
theorem persist_failure_leaves_debit_applied_witness :
    sendMessageHandler false false 0 "2026-10-11" "userA" "userB" "hello"
        "MSG1" true ⟨some preSub3, some activePeerSub, none, false⟩
      = ⟨[Effect.debitUsage "userA", Effect.errorEvt "db_error"],
          ⟨some { preSub3 with
              messagesUsedToday := some 1, messagesUsedTotal := some 4,
              totalMessagesUsed := some 4 },
            some activePeerSub, none, false⟩⟩ := by
  obtain ⟨s', hs', htot, heq⟩ := persist_failure_leaves_debit_applied 0
    "2026-10-11" "userA" "userB" "hello" "MSG1" preSub3 activePeerSub none
    false (by decide) (by decide) (by decide) (by decide)
  have hsa : (checkMessageLimit false (some preSub3) 0 "2026-10-11").subAfter
      = some preSub3 := by decide
  rw [hs'] at hsa
  obtain rfl : s' = preSub3 := Option.some.inj hsa
  rw [heq]
  decide

/-- An active subscription with a `null` audio allowance (the schema
default is `0`, but `null` can occur on migrated documents; `?? 0` maps it
to `0`). -/
def nullAudioSub : Subscription :=
  { baseSub with endDate := 1000, audioTimeAllowed := none }

/-- An active subscription with a `null` message allowance and heavy past
usage. -/
def unlimitedMsgSub : Subscription :=
  { baseSub with endDate := 1000, messagesUsedTotal := some 999 }

/-- An active subscription whose message allowance is `0`. -/
def zeroMsgSub : Subscription :=
  { baseSub with endDate := 1000, messagesAllowed := some 0 }

/-- C7 counterexample: on the call-start gate a `null` allowance is **not**
unlimited — `ensureCallQuota` maps it to `0` (`?? 0`) and denies even with
zero usage. -/
theorem null_call_allowance_denied_cex :
    nullAudioSub.audioTimeAllowed = none ∧
    nullAudioSub.audioTimeUsedTotal = some 0 ∧
    ensureCallQuota (some nullAudioSub) 0 .audio
      = .denied "AUDIO_LIMIT_REACHED" := by decide

/-- C7 (amended): for messages, a `null` allowance is unlimited (the HTTP
check grants regardless of usage) and an allowance of `0` always denies;
for audio and video the call-start gate coerces a `null` allowance to `0`
(`?? 0`), so `null` and `0` alike mean the feature is disabled and the
check always denies. -/
theorem allowance_null_zero_semantics
    (now : Int) (msg f t pid : String) (s s2 : Subscription)
    (chat : Option ChatDoc)
    (hmsg : jsTrim msg ≠ "")
    (h1 : ¬ now > s.endDate) (h2 : ¬ now > s2.endDate)
    (hused : 0 ≤ s.messagesUsedTotal.getD 0) :
    (s.messagesAllowed = none →
      (sendMessage false now true msg f t pid
          ⟨some s, some s2, chat⟩).result.isSuccess = true) ∧
    (s.messagesAllowed = some 0 →
      (sendMessage false now true msg f t pid ⟨some s, some s2, chat⟩).result
        = .forbidden "MESSAGE_LIMIT_EXCEEDED") ∧
    (∀ sc : Subscription, now < sc.endDate →
      0 ≤ sc.audioTimeUsedTotal.getD 0 →
      (sc.audioTimeAllowed = none ∨ sc.audioTimeAllowed = some 0) →
      ensureCallQuota (some sc) now .audio
        = .denied "AUDIO_LIMIT_REACHED") ∧
    (∀ sc : Subscription, now < sc.endDate →
      0 ≤ sc.videoTimeUsedTotal.getD 0 →
      (sc.videoTimeAllowed = none ∨ sc.videoTimeAllowed = some 0) →
      ensureCallQuota (some sc) now .video
        = .denied "VIDEO_LIMIT_REACHED") := by
  have hv : validateBothUsersSubscription false (some s) (some s2) now
      = ⟨true, true, "ok"⟩ := by
    simp [validateBothUsersSubscription, h1, h2]
  refine ⟨?_, ?_, ?_, ?_⟩
  · intro hA
    unfold sendMessage
    simp only [hv]
    simp [hmsg, h1, hA, SendResult.isSuccess]
  · intro hA
    unfold sendMessage
    simp only [hv]
    simp only [hmsg, h1, hA]
    simp [hused]
  · intro sc hact husedc hA
    unfold ensureCallQuota getActiveSubscription
    simp only [reduceIte, hact]
    rcases hA with hA | hA
    · simp only [hA]
      rw [if_pos (by simp only [Option.getD_none]; omega)]
    · simp only [hA]
      rw [if_pos (by simp only [Option.getD_some]; omega)]
  · intro sc hact husedc hA
    unfold ensureCallQuota getActiveSubscription
    simp only [reduceIte, hact]
    rcases hA with hA | hA
    · simp only [hA]
      rw [if_pos (by simp only [Option.getD_none]; omega)]
    · simp only [hA]
      rw [if_pos (by simp only [Option.getD_some]; omega)]

/-- Witness for C7 (amended) at concrete subscriptions. -/
theorem allowance_null_zero_semantics_witness :
    (sendMessage false 0 true "hello" "userA" "userB" "MSG1"
        ⟨some unlimitedMsgSub, some activePeerSub, none⟩).result.isSuccess
      = true ∧
    (sendMessage false 0 true "hello" "userA" "userB" "MSG2"
        ⟨some zeroMsgSub, some activePeerSub, none⟩).result
      = .forbidden "MESSAGE_LIMIT_EXCEEDED" ∧
    ensureCallQuota (some nullAudioSub) 0 .audio
      = .denied "AUDIO_LIMIT_REACHED" ∧
    ensureCallQuota (some activePeerSub) 0 .video
      = .denied "VIDEO_LIMIT_REACHED" := by
  have hu := allowance_null_zero_semantics 0 "hello" "userA" "userB" "MSG1"
    unlimitedMsgSub activePeerSub none (by decide) (by decide) (by decide)
    (by decide)
  have hz := allowance_null_zero_semantics 0 "hello" "userA" "userB" "MSG2"
    zeroMsgSub activePeerSub none (by decide) (by decide) (by decide)
    (by decide)
  exact ⟨hu.1 (by decide), hz.2.1 (by decide),
    hu.2.2.1 nullAudioSub (by decide) (by decide) (Or.inl (by decide)),
    hu.2.2.2 activePeerSub (by decide) (by decide) (Or.inr (by decide))⟩

/-- C8 counterexample: a user who disconnects at t = 1000 and reconnects at
t = 5000 (well inside the 30 s window) still causes a `user_offline`
broadcast, emitted immediately at the disconnect; the 30 s timer only
schedules the deletion of the presence entry and is not cancelled by the
reconnect. -/
theorem offline_broadcast_despite_quick_reconnect_cex :
    (runChatPresence [.connect "userA" 0, .disconnect "userA" 1000,
        .connect "userA" 5000]).emitted
      = [(0, "user_online", "userA"), (1000, "user_offline", "userA"),
         (5000, "user_online", "userA")] ∧
    (5000 : Int) - 1000 < 30000 ∧
    (runChatPresence [.connect "userA" 0, .disconnect "userA" 1000,
        .connect "userA" 5000]).pendingDeletes = [(31000, "userA")] := by
  decide

/-- C8 (amended): the chat namespace broadcasts `user_offline` in the
same step as the disconnect of a known user (nothing is deferred to the
grace window except the deletion of the presence entry, scheduled at
t + 30000), a reconnect cancels no pending deletion, and the presence
namespace broadcasts `user_offline` immediately when a user's last socket
disconnects, with no grace timer at all. -/
theorem disconnect_broadcasts_offline_immediately
    (st : ChatPresenceState) (u : String) (t : Int)
    (hon : (st.onlineUsers.lookup u).isSome = true) :
    (chatPresenceStep st (.disconnect u t)).emitted
      = st.emitted ++ [(t, "user_offline", u)] ∧
    (chatPresenceStep st (.disconnect u t)).pendingDeletes
      = st.pendingDeletes ++ [(t + 30000, u)] ∧
    (∀ (v : String) (tc : Int),
      (chatPresenceStep st (.connect v tc)).pendingDeletes
        = st.pendingDeletes) ∧
    (∀ (ns : PresenceNsState) (sid : String) (socks : List String),
      ns.userSockets.lookup u = some socks → socks.erase sid = [] →
      ns.onlineUsers.contains u = true →
      (handleDisconnection u sid ns).emitted
        = ns.emitted ++ [("user_offline", u)]) := by
  refine ⟨?_, ?_, ?_, ?_⟩
  · unfold chatPresenceStep
    dsimp only
    rw [if_pos hon]
  · unfold chatPresenceStep
    dsimp only
    rw [if_pos hon]
  · intro v tc
    rfl
  · intro ns sid socks hsocks herase hcont
    unfold handleDisconnection
    simp only [hsocks, herase, hcont]
    simp

/-- Witness for C8 (amended) at a concrete presence state. -/
theorem disconnect_broadcasts_offline_immediately_witness :
    (chatPresenceStep ⟨[("userA", ⟨true, 0⟩)], [], []⟩
        (.disconnect "userA" 1000)).emitted
      = [(1000, "user_offline", "userA")] ∧
    (chatPresenceStep ⟨[("userA", ⟨true, 0⟩)], [], []⟩
        (.disconnect "userA" 1000)).pendingDeletes = [(31000, "userA")] ∧
    (handleDisconnection "userA" "sock1"
        ⟨[("userA", ["sock1"])], ["userA"], []⟩).emitted
      = [("user_offline", "userA")] := by
  have h := disconnect_broadcasts_offline_immediately
    ⟨[("userA", ⟨true, 0⟩)], [], []⟩ "userA" 1000 (by decide)
  refine ⟨?_, ?_, ?_⟩
  · rw [h.1]; decide
  · rw [h.2.1]; decide
  · rw [h.2.2.2 ⟨[("userA", ["sock1"])], ["userA"], []⟩ "sock1" ["sock1"]
      (by decide) (by decide) (by decide)]
    decide

/-- Witness for C6 (amended) at the exhausted-total subscription. -/
theorem message_check_models_per_path_witness :
    ((sendMessage false 0 true "hello" "userA" "userB" "MSG1"
        ⟨some totalExhaustedSub, some activePeerSub, none⟩).result
      = .forbidden "MESSAGE_LIMIT_EXCEEDED"
      ↔ ∃ a, totalExhaustedSub.messagesAllowed = some a ∧
          a ≤ totalExhaustedSub.messagesUsedTotal.getD 0) ∧
    ((checkMessageLimit false (some totalExhaustedSub) 0
          "2026-10-11").canSend = true
      ↔ (totalExhaustedSub.planDailyLimit = none ∨
          ∃ m, totalExhaustedSub.planDailyLimit = some m ∧
            (if totalExhaustedSub.lastMessageDate = some "2026-10-11" then
              totalExhaustedSub.messagesUsedToday.getD 0
             else 0) < m)) :=
  message_check_models_per_path 0 "2026-10-11" "hello" "userA" "userB"
    "MSG1" totalExhaustedSub activePeerSub none (by decide) (by decide)
    (by decide)

end CrmCore
